import Mathlib

/-!
# Verification of the Bitfinex funding monitor

A shallow embedding of the monitor's core logic, faithful to the Python
source files:

* `bitfinex_api.py` — wallet/offer/loan fetch parsing and the per-currency
  funding-status aggregator (`get_funding_status`);
* `monitor.py`      — the change detector (`check_for_changes`);
* `notifications.py`— status-change message construction
  (`notify_lending_status_change`);
* `telegram_bot.py` — the chat front-end's reply builders and
  authorization guards;
* `config.py`       — the notification message templates.

Python floats are modelled as exact rationals (`ℚ`); Python dicts are
modelled as association lists with first-match lookup and
replace-or-append insertion, which agrees with dict semantics whenever
keys are unique (all dicts built by this program have unique keys).
`round(x, n)` is modelled as nearest-integer rounding at `n` decimal
digits on exact rationals; Python applies banker's rounding to binary
floats, which agrees with this model away from ties, and no theorem
below depends on tie behaviour.
-/

set_option maxHeartbeats 1000000
set_option autoImplicit false

/-- The projection of a funding offer / funding loan record onto the fields
the aggregator and the chat front-end actually read (`'amount'`, `'rate'`,
`'period'` in `bitfinex_api.py` and `telegram_bot.py`). -/
structure FundingItem where
  amount : ℚ
  rate : ℚ
  period : ℤ
deriving DecidableEq, Repr

/-- A Python dict value appearing in a per-currency funding-status record:
a number, a string, or a list of offer/loan records. -/
inductive Val where
  | num (q : ℚ)
  | str (s : String)
  | items (l : List FundingItem)
deriving DecidableEq, Repr

/-- A Python dict with string keys, modelled as an association list. -/
abbrev PyDict (α : Type) := List (String × α)

/-- A per-currency funding-status record, as built by
`BitfinexAPI.get_funding_status` (a Python dict). -/
abbrev Status := PyDict Val

/-- Python `d[k]` / `d.get(k)`: first-match lookup. -/
def dictGet {α : Type} (d : PyDict α) (k : String) : Option α :=
  (d.find? (fun p => p.1 == k)).map (·.2)

/-- Python `d.get(k, v)`: lookup with default. -/
def dictGetD {α : Type} (d : PyDict α) (k : String) (v : α) : α :=
  (dictGet d k).getD v

/-- The key list of a dict. -/
def keys {α : Type} (d : PyDict α) : List String :=
  d.map Prod.fst

/-- Lookup in a status record (Python `status.get(k)`). -/
def dget (st : Status) (k : String) : Option Val :=
  dictGet st k

/-- Python `status.get(k, dflt)` where the caller uses the result as a
number.  Every numeric key written by the program holds a `Val.num`; a
missing key yields the default. -/
def dgetNum (st : Status) (k : String) (dflt : ℚ) : ℚ :=
  match dget st k with
  | some (Val.num q) => q
  | _ => dflt

/-- Python `d[k] = v`: replace the value of an existing key in place,
else append the new binding. -/
def dinsert {α : Type} (d : PyDict α) (k : String) (v : α) : PyDict α :=
  if d.any (fun p => p.1 == k) then
    d.map (fun p => if p.1 == k then (k, v) else p)
  else
    d ++ [(k, v)]

/-! ## Status aggregator (`bitfinex_api.py`, `get_funding_status`) -/

/-- `sum(x['amount'] for x in items)`. -/
def sumAmounts (l : List FundingItem) : ℚ :=
  (l.map FundingItem.amount).sum

/-- The average-rate computation of `get_funding_status`
(`bitfinex_api.py` lines 404-411): `0.0` for an empty list, else the
unweighted mean of the `'rate'` fields. -/
def avgRateOf (l : List FundingItem) : ℚ :=
  if l = [] then 0 else (l.map FundingItem.rate).sum / l.length

/-- The lending-status classification of `get_funding_status`
(`bitfinex_api.py` lines 413-419):
`total_loan_amount > 0 → "active"`, else
`total_offer_amount > 0 → "offered"`, else `"inactive"`. -/
def lending_status (total_offer_amount total_loan_amount : ℚ) : String :=
  if total_loan_amount > 0 then "active"
  else if total_offer_amount > 0 then "offered"
  else "inactive"

/-- The per-currency status record compiled by `get_funding_status`
(`bitfinex_api.py` lines 394-434), with the dict keys in source order. -/
def statusFor (balances : PyDict ℚ) (offers loans : PyDict (List FundingItem))
    (currency : String) : Status :=
  let wallet_balance := dictGetD balances currency 0
  let currency_offers := dictGetD offers currency []
  let total_offer_amount := sumAmounts currency_offers
  let currency_loans := dictGetD loans currency []
  let total_loan_amount := sumAmounts currency_loans
  [("wallet_balance", Val.num wallet_balance),
   ("total_balance", Val.num (wallet_balance + total_loan_amount)),
   ("offered_amount", Val.num total_offer_amount),
   ("loaned_amount", Val.num total_loan_amount),
   ("num_offers", Val.num currency_offers.length),
   ("num_loans", Val.num currency_loans.length),
   ("avg_offer_rate", Val.num (avgRateOf currency_offers)),
   ("avg_loan_rate", Val.num (avgRateOf currency_loans)),
   ("lending_status", Val.str (lending_status total_offer_amount total_loan_amount)),
   ("offers", Val.items currency_offers),
   ("loans", Val.items currency_loans)]

/-- `BitfinexAPI.get_funding_status` (`bitfinex_api.py` lines 389-436):
the currency set is the union of the key sets of the three inputs
(`set(list(balances.keys()) + list(offers.keys()) + list(loans.keys()))`),
and each currency maps to its compiled status record. -/
def get_funding_status (balances : PyDict ℚ)
    (offers loans : PyDict (List FundingItem)) : PyDict Status :=
  ((keys balances ++ keys offers ++ keys loans).dedup).map
    (fun c => (c, statusFor balances offers loans c))

/-! ## Basic dict lemmas -/

theorem dictGet_eq_none_of_not_mem {α : Type} (d : PyDict α) (k : String)
    (h : k ∉ keys d) : dictGet d k = none := by
  unfold dictGet
  rw [List.find?_eq_none.mpr]
  · rfl
  · intro p hp
    simp only [beq_iff_eq]
    intro hk
    exact h (hk ▸ List.mem_map_of_mem Prod.fst hp)

theorem dictGet_map_self {α : Type} (ks : List String) (f : String → α) (c : String) :
    dictGet (ks.map (fun k => (k, f k))) c =
      if c ∈ ks then some (f c) else none := by
  induction ks with
  | nil => simp [dictGet]
  | cons k t ih =>
    by_cases hk : k = c
    · subst hk
      simp [dictGet, List.find?]
    · simp only [List.map_cons, dictGet, List.find?]
      have : (k == c) = false := by simp [hk]
      rw [this]
      simp only [dictGet] at ih
      rw [ih]
      simp [List.mem_cons, hk, Ne.symm hk]

theorem mem_map_graph {α : Type} {ks : List String} {f : String → α} {c : String} {v : α}
    (h : (c, v) ∈ ks.map (fun k => (k, f k))) : c ∈ ks ∧ v = f c := by
  rcases List.mem_map.mp h with ⟨k, hk, he⟩
  cases he
  exact ⟨hk, rfl⟩

/-! ## Claim theorems: aggregator -/

/-- C2: the `lending_status` classification computed by the aggregator is
the pure function `loanedAmount > 0 ⇒ "active"`; else
`offeredAmount > 0 ⇒ "offered"`; else `"inactive"`, over all sign
combinations of the two inputs, and it agrees with itself after clamping
negative inputs to zero. -/
theorem C2_classification (o l : ℚ) :
    (0 < l → lending_status o l = "active") ∧
    (l ≤ 0 → 0 < o → lending_status o l = "offered") ∧
    (l ≤ 0 → o ≤ 0 → lending_status o l = "inactive") ∧
    lending_status o l = lending_status (max o 0) (max l 0) := by
  unfold lending_status
  refine ⟨?_, ?_, ?_, ?_⟩
  · intro h; rw [if_pos h]
  · intro hl ho
    rw [if_neg (by linarith), if_pos ho]
  · intro hl ho
    rw [if_neg (by linarith), if_neg (by linarith)]
  · by_cases hl : 0 < l
    · simp [hl, lt_max_iff]
    · by_cases ho : 0 < o <;> simp [hl, ho, lt_max_iff]

theorem C2_classification_witness :
    lending_status 1 (-1) = "offered" :=
  (C2_classification 1 (-1)).2.1 (by norm_num) (by norm_num)

/-- C4: the currency key set of the aggregated map is the union of the
key sets of the three inputs, and a currency present only in the wallet
balances (no offers, no loans) is classified `"inactive"`. -/
theorem C4_key_union (b : PyDict ℚ) (o l : PyDict (List FundingItem)) (c : String) :
    (c ∈ keys (get_funding_status b o l) ↔
      c ∈ keys b ∨ c ∈ keys o ∨ c ∈ keys l) ∧
    (c ∈ keys b → c ∉ keys o → c ∉ keys l →
      ∃ st, dictGet (get_funding_status b o l) c = some st ∧
        dget st "lending_status" = some (Val.str "inactive")) := by
  constructor
  · unfold get_funding_status keys
    simp [List.mem_dedup, or_assoc]
  · intro hb ho hl
    refine ⟨statusFor b o l c, ?_, ?_⟩
    · unfold get_funding_status
      rw [dictGet_map_self]
      rw [if_pos]
      simp only [List.mem_dedup, List.mem_append]
      exact Or.inl (Or.inl hb)
    · have hoc : dictGetD o c [] = [] := by
        unfold dictGetD
        rw [dictGet_eq_none_of_not_mem o c ho]
        rfl
      have hlc : dictGetD l c [] = [] := by
        unfold dictGetD
        rw [dictGet_eq_none_of_not_mem l c hl]
        rfl
      unfold statusFor
      simp only [hoc, hlc]
      have : lending_status (sumAmounts []) (sumAmounts []) = "inactive" := by
        unfold lending_status sumAmounts
        norm_num
      simp [dget, dictGet, List.find?, this]

theorem C4_key_union_witness :
    ("USD" ∈ keys (get_funding_status [("USD", 5)] [] [])) ∧
    (∃ st, dictGet (get_funding_status [("USD", 5)] [] []) "USD" = some st ∧
      dget st "lending_status" = some (Val.str "inactive")) :=
  ⟨(C4_key_union [("USD", 5)] [] [] "USD").1.mpr (Or.inl (by decide)),
   (C4_key_union [("USD", 5)] [] [] "USD").2 (by decide) (by decide) (by decide)⟩

/-- C5: every record produced by the aggregator satisfies
`total_balance = wallet_balance + loaned_amount` (offered amount
excluded), `num_offers = len(offers)`, `num_loans = len(loans)`, and the
average rates are the unweighted means of the respective rate lists,
`0` when the list is empty. -/
theorem C5_record_invariants (b : PyDict ℚ) (o l : PyDict (List FundingItem))
    (c : String) (st : Status) (h : (c, st) ∈ get_funding_status b o l) :
    ∃ (wb : ℚ) (co cl : List FundingItem),
      dget st "wallet_balance" = some (Val.num wb) ∧
      dget st "offers" = some (Val.items co) ∧
      dget st "loans" = some (Val.items cl) ∧
      dget st "loaned_amount" = some (Val.num (sumAmounts cl)) ∧
      dget st "offered_amount" = some (Val.num (sumAmounts co)) ∧
      dget st "total_balance" = some (Val.num (wb + sumAmounts cl)) ∧
      dget st "num_offers" = some (Val.num co.length) ∧
      dget st "num_loans" = some (Val.num cl.length) ∧
      dget st "avg_offer_rate" =
        some (Val.num (if co = [] then 0 else (co.map FundingItem.rate).sum / co.length)) ∧
      dget st "avg_loan_rate" =
        some (Val.num (if cl = [] then 0 else (cl.map FundingItem.rate).sum / cl.length)) := by
  have hst : st = statusFor b o l c := (mem_map_graph h).2
  subst hst
  refine ⟨dictGetD b c 0, dictGetD o c [], dictGetD l c [], ?_⟩
  unfold statusFor avgRateOf
  simp [dget, dictGet, List.find?]

theorem C5_record_invariants_witness :
    ∃ (wb : ℚ) (co cl : List FundingItem),
      dget (statusFor [("USD", 5)] [] [] "USD") "wallet_balance" = some (Val.num wb) ∧
      dget (statusFor [("USD", 5)] [] [] "USD") "offers" = some (Val.items co) ∧
      dget (statusFor [("USD", 5)] [] [] "USD") "loans" = some (Val.items cl) ∧
      dget (statusFor [("USD", 5)] [] [] "USD") "loaned_amount" = some (Val.num (sumAmounts cl)) ∧
      dget (statusFor [("USD", 5)] [] [] "USD") "offered_amount" = some (Val.num (sumAmounts co)) ∧
      dget (statusFor [("USD", 5)] [] [] "USD") "total_balance" = some (Val.num (wb + sumAmounts cl)) ∧
      dget (statusFor [("USD", 5)] [] [] "USD") "num_offers" = some (Val.num co.length) ∧
      dget (statusFor [("USD", 5)] [] [] "USD") "num_loans" = some (Val.num cl.length) ∧
      dget (statusFor [("USD", 5)] [] [] "USD") "avg_offer_rate" =
        some (Val.num (if co = [] then 0 else (co.map FundingItem.rate).sum / co.length)) ∧
      dget (statusFor [("USD", 5)] [] [] "USD") "avg_loan_rate" =
        some (Val.num (if cl = [] then 0 else (cl.map FundingItem.rate).sum / cl.length)) :=
  C5_record_invariants [("USD", 5)] [] [] "USD" (statusFor [("USD", 5)] [] [] "USD")
    (List.mem_map.mpr ⟨"USD", by decide, rfl⟩)

/-! ## Change detector (`monitor.py`) and notifications (`notifications.py`) -/

/-- Python `round(x, 2)` on exact rationals. -/
def round2 (q : ℚ) : ℚ :=
  (round (q * 100) : ℤ) / 100

/-- Python `round(x, 8)` on exact rationals. -/
def round8 (q : ℚ) : ℚ :=
  (round (q * 100000000) : ℤ) / 100000000

/-- The default `previous` record used by `check_for_changes`
(`monitor.py` lines 83-90) for a currency never seen before. -/
def defaultPrevious : Status :=
  [("lending_status", Val.str "unknown"),
   ("wallet_balance", Val.num 0),
   ("offered_amount", Val.num 0),
   ("loaned_amount", Val.num 0),
   ("avg_offer_rate", Val.num 0),
   ("avg_loan_rate", Val.num 0)]

/-- The outcome of the per-currency body of `check_for_changes`
(`monitor.py` lines 82-116): `firstSeen` logs and continues,
`statusNotify` and `paramNotify` invoke
`notifier.notify_lending_status_change`, `noEvent` does nothing. -/
inductive CheckEvent where
  | firstSeen
  | statusNotify
  | paramNotify
  | noEvent
deriving DecidableEq, Repr

/-- The per-currency body of `FundingMonitor.check_for_changes`
(`monitor.py` lines 82-116). -/
def checkCurrency (previousAll : PyDict Status) (currency : String)
    (status : Status) : CheckEvent :=
  let previous := dictGetD previousAll currency defaultPrevious
  if dget previous "lending_status" = some (Val.str "unknown") then
    CheckEvent.firstSeen
  else if dget previous "lending_status" ≠ dget status "lending_status" then
    CheckEvent.statusNotify
  else if dget status "lending_status" = some (Val.str "active") then
    let old_rate := round2 (dgetNum previous "avg_loan_rate" 0)
    let new_rate := round2 (dgetNum status "avg_loan_rate" 0)
    let old_amount := round8 (dgetNum previous "loaned_amount" 0)
    let new_amount := round8 (dgetNum status "loaned_amount" 0)
    let rate_changed := |old_rate - new_rate| > 1/100
    let amount_changed := |old_amount - new_amount| > 1/10000
    if rate_changed ∨ amount_changed then CheckEvent.paramNotify
    else CheckEvent.noEvent
  else
    CheckEvent.noEvent

/-- The observable outcome of one `check_for_changes` cycle: the new
in-memory `previous_status`, the snapshot written to the data file
(`none` when `save_current_status` is not called), and the list of
`notify_lending_status_change(currency, previous, status)` invocations. -/
structure CycleResult where
  previousStatus : PyDict Status
  savedFile : Option (PyDict Status)
  notified : List (String × Status × Status)
deriving DecidableEq, Repr

/-- `FundingMonitor.check_for_changes` (`monitor.py` lines 66-127), with
the freshly aggregated `current_status` and the configured
`MONITORED_FUNDS` filter as explicit inputs.  An empty aggregate
(`if not current_status`) returns early, leaving all state unchanged. -/
def check_for_changes (previousStatus : PyDict Status)
    (currentStatus : PyDict Status) (monitoredFunds : List String) : CycleResult :=
  if currentStatus = [] then
    ⟨previousStatus, none, []⟩
  else
    let current :=
      if monitoredFunds ≠ [] then
        currentStatus.filter (fun p => monitoredFunds.contains p.1)
      else currentStatus
    let notified := current.filterMap (fun p =>
      match checkCurrency previousStatus p.1 p.2 with
      | CheckEvent.statusNotify =>
          some (p.1, dictGetD previousStatus p.1 defaultPrevious, p.2)
      | CheckEvent.paramNotify =>
          some (p.1, dictGetD previousStatus p.1 defaultPrevious, p.2)
      | _ => none)
    ⟨current, some current, notified⟩

/-- Renders an exact multiple of `10 ^ (-8)` in decimal, trailing zeros
trimmed but at least one fractional digit kept.  Models Python's
`str()` conversion of the already-rounded numbers interpolated into the
notification templates; no theorem below depends on the exact digits. -/
def decStr (q : ℚ) : String :=
  let m : ℤ := round (q * 100000000)
  let sgn := if m < 0 then "-" else ""
  let n := m.natAbs
  let digits := Nat.toDigits 10 (n % 100000000)
  let padded := List.replicate (8 - digits.length) '0' ++ digits
  let trimmed := (padded.reverse.dropWhile (fun c => c == '0')).reverse
  sgn ++ toString (n / 100000000) ++ "." ++
    String.mk (if trimmed = [] then ['0'] else trimmed)

/-- `config.NOTIFICATION_TEMPLATES['lending_active']`. -/
def lending_active_template (currency : String) (rate : ℚ) : String :=
  currency ++ ": Lending activated at " ++ decStr rate ++ "% APR"

/-- `config.NOTIFICATION_TEMPLATES['lending_cancelled']`. -/
def lending_cancelled_template (currency : String) : String :=
  currency ++ ": Lending cancelled"

/-- `config.NOTIFICATION_TEMPLATES['lending_closed']`. -/
def lending_closed_template (currency : String) : String :=
  currency ++ ": Lending closed, funds returned"

/-- `config.NOTIFICATION_TEMPLATES['rate_changed']`. -/
def rate_changed_template (currency : String) (old_rate new_rate : ℚ) : String :=
  currency ++ ": Rate changed from " ++ decStr old_rate ++ "% to " ++
    decStr new_rate ++ "%"

/-- `config.NOTIFICATION_TEMPLATES['amount_changed']`. -/
def amount_changed_template (currency : String) (old_amount new_amount : ℚ) : String :=
  currency ++ ": Amount changed from " ++ decStr old_amount ++ " to " ++
    decStr new_amount

/-- The `message` computed by
`NotificationManager.notify_lending_status_change`
(`notifications.py` lines 149-195).  The notification is dispatched
(`send_notification`) exactly when this message is non-empty
(lines 196-200). -/
def notify_lending_status_change_message (currency : String)
    (old_status new_status : Status) : String :=
  let oldLS := dget old_status "lending_status"
  let newLS := dget new_status "lending_status"
  if oldLS = some (Val.str "inactive") ∧ newLS = some (Val.str "offered") then
    currency ++ " funds are now offered for lending"
  else if oldLS = some (Val.str "offered") ∧ newLS = some (Val.str "active") then
    lending_active_template currency (round2 (dgetNum new_status "avg_loan_rate" 0))
  else if oldLS = some (Val.str "offered") ∧ newLS = some (Val.str "inactive") then
    lending_cancelled_template currency
  else if oldLS = some (Val.str "active") ∧ newLS = some (Val.str "inactive") then
    lending_closed_template currency
  else if oldLS = some (Val.str "active") ∧ newLS = some (Val.str "active") then
    let old_rate := round2 (dgetNum old_status "avg_loan_rate" 0)
    let new_rate := round2 (dgetNum new_status "avg_loan_rate" 0)
    let message :=
      if |old_rate - new_rate| > 1/100 then
        rate_changed_template currency old_rate new_rate
      else ""
    let old_amount := round8 (dgetNum old_status "loaned_amount" 0)
    let new_amount := round8 (dgetNum new_status "loaned_amount" 0)
    if |old_amount - new_amount| > 1/10000 then
      if message ≠ "" then
        message ++ "\nAmount changed from " ++ decStr old_amount ++ " to " ++
          decStr new_amount ++ " " ++ currency
      else
        amount_changed_template currency old_amount new_amount
    else message
  else ""

/-- `NotificationManager.notify_lending_status_change` invokes
`send_notification` if and only if the constructed message is non-empty
(`notifications.py` lines 196-200). -/
def notify_lending_status_change (currency : String)
    (old_status new_status : Status) : Bool :=
  notify_lending_status_change_message currency old_status new_status != ""

/-- C10: when the freshly aggregated status map is empty (e.g. a total
fetch outage), `check_for_changes` returns early: the in-memory
previous snapshot is kept, the snapshot file is not rewritten, and no
notification is dispatched. -/
theorem C10_empty_fetch_early_return (previousStatus : PyDict Status)
    (monitoredFunds : List String) :
    check_for_changes previousStatus [] monitoredFunds =
      ⟨previousStatus, none, []⟩ := by
  unfold check_for_changes
  rfl

/-! ## Claim theorems: status transitions and notifications -/

theorem string_eq_empty_of_length (t : String) (h : t.length = 0) : t = "" := by
  cases t with
  | mk d =>
    cases d with
    | nil => rfl
    | cons c cs => simp [String.length] at h

theorem append_right_ne_empty (s t : String) (h : t ≠ "") : s ++ t ≠ "" := by
  intro he
  apply h
  have hl := congrArg String.length he
  rw [String.length_append] at hl
  have h0 : ("" : String).length = 0 := rfl
  rw [h0] at hl
  exact string_eq_empty_of_length t (by omega)

/-- C1 counterexample: for the transition `inactive → active` the change
detector does invoke the notifier, but the notifier constructs an empty
message and therefore never dispatches a notification. -/
theorem C1_counterexample :
    checkCurrency [("BTC", [("lending_status", Val.str "inactive")])] "BTC"
        [("lending_status", Val.str "active")] = CheckEvent.statusNotify ∧
    notify_lending_status_change_message "BTC"
        [("lending_status", Val.str "inactive")]
        [("lending_status", Val.str "active")] = "" ∧
    notify_lending_status_change "BTC"
        [("lending_status", Val.str "inactive")]
        [("lending_status", Val.str "active")] = false := by
  refine ⟨?_, rfl, rfl⟩
  decide

/-- C1 (amended): when a currency is present in both snapshots with
previous lending status not `"unknown"` and the lending status changed,
the change detector always invokes the notifier; but a non-empty message
is constructed (and a notification dispatched) only for the four ordered
pairs `inactive→offered`, `offered→active`, `offered→inactive`,
`active→inactive` — the transitions `inactive→active` and
`active→offered` produce an empty message and no dispatch. -/
theorem C1_transition_notifications (previousAll : PyDict Status)
    (currency : String) (old_status new_status : Status) (s1 s2 : String)
    (hprev : dictGet previousAll currency = some old_status)
    (h1 : dget old_status "lending_status" = some (Val.str s1))
    (h2 : dget new_status "lending_status" = some (Val.str s2))
    (hs1 : s1 = "inactive" ∨ s1 = "offered" ∨ s1 = "active")
    (hs2 : s2 = "inactive" ∨ s2 = "offered" ∨ s2 = "active")
    (hne : s1 ≠ s2) :
    checkCurrency previousAll currency new_status = CheckEvent.statusNotify ∧
    (notify_lending_status_change currency old_status new_status = true ↔
      (s1, s2) ∈ [("inactive", "offered"), ("offered", "active"),
                  ("offered", "inactive"), ("active", "inactive")]) := by
  have hprev' : dictGetD previousAll currency defaultPrevious = old_status := by
    unfold dictGetD
    rw [hprev]
    rfl
  constructor
  · have hupd : s1 ≠ "unknown" := by
      rcases hs1 with h | h | h <;> subst h <;> decide
    simp only [checkCurrency, hprev', h1, h2]
    rw [if_neg (by simp [hupd]), if_pos (by simp [hne])]
  · simp only [notify_lending_status_change, notify_lending_status_change_message,
      h1, h2]
    rcases hs1 with h | h | h <;> subst h <;> rcases hs2 with h | h | h <;> subst h
    · exact absurd rfl hne
    · rw [if_pos (by decide)]
      exact iff_of_true (bne_iff_ne.mpr
        (append_right_ne_empty _ _ (by decide))) (by decide)
    · rw [if_neg (by decide), if_neg (by decide), if_neg (by decide),
        if_neg (by decide), if_neg (by decide)]
      decide
    · rw [if_neg (by decide), if_neg (by decide), if_pos (by decide)]
      simp only [lending_cancelled_template]
      exact iff_of_true (bne_iff_ne.mpr
        (append_right_ne_empty _ _ (by decide))) (by decide)
    · exact absurd rfl hne
    · rw [if_neg (by decide), if_pos (by decide)]
      simp only [lending_active_template]
      exact iff_of_true (bne_iff_ne.mpr
        (append_right_ne_empty _ _ (by decide))) (by decide)
    · rw [if_neg (by decide), if_neg (by decide), if_neg (by decide),
        if_pos (by decide)]
      simp only [lending_closed_template]
      exact iff_of_true (bne_iff_ne.mpr
        (append_right_ne_empty _ _ (by decide))) (by decide)
    · rw [if_neg (by decide), if_neg (by decide), if_neg (by decide),
        if_neg (by decide), if_neg (by decide)]
      decide
    · exact absurd rfl hne

/-- In the both-`active` branch, `checkCurrency` reduces to the threshold
comparison of `monitor.py` lines 103-116. -/
theorem checkCurrency_active_eq (previousAll : PyDict Status) (currency : String)
    (previous status : Status)
    (hprev : dictGet previousAll currency = some previous)
    (h1 : dget previous "lending_status" = some (Val.str "active"))
    (h2 : dget status "lending_status" = some (Val.str "active")) :
    checkCurrency previousAll currency status =
      (if |round2 (dgetNum previous "avg_loan_rate" 0) -
            round2 (dgetNum status "avg_loan_rate" 0)| > 1/100 ∨
          |round8 (dgetNum previous "loaned_amount" 0) -
            round8 (dgetNum status "loaned_amount" 0)| > 1/10000
       then CheckEvent.paramNotify else CheckEvent.noEvent) := by
  have hprev' : dictGetD previousAll currency defaultPrevious = previous := by
    unfold dictGetD
    rw [hprev]
    rfl
  simp only [checkCurrency, hprev', h1, h2]
  rw [if_neg (by simp), if_neg (by simp), if_pos trivial]

/-- The rounded-rate delta is an integer multiple of `1/100`, so a strict
excess over `1/100` forces at least `2/100`. -/
theorem round2_granularity (a b : ℚ) (h : |round2 a - round2 b| > 1/100) :
    |round2 a - round2 b| ≥ 2/100 := by
  unfold round2 at h ⊢
  have e : ((round (a*100) : ℤ) : ℚ)/100 - ((round (b*100) : ℤ) : ℚ)/100
      = ((round (a*100) - round (b*100) : ℤ) : ℚ)/100 := by
    push_cast
    ring
  rw [e] at h ⊢
  set k : ℤ := round (a*100) - round (b*100) with hk
  rw [abs_div, abs_of_pos (by norm_num : (0:ℚ) < 100)] at h ⊢
  have h1 : (1:ℚ) < |(k:ℚ)| := (div_lt_div_iff_of_pos_right (by norm_num)).mp h
  have h2 : (1:ℤ) < |k| := by exact_mod_cast h1
  have h3 : (2:ℤ) ≤ |k| := by omega
  have h4 : (2:ℚ) ≤ |(k:ℚ)| := by exact_mod_cast h3
  exact (div_le_div_iff_of_pos_right (by norm_num)).mpr h4

/-- C3 counterexample: both snapshots `active`, previous average loan rate
`0`, current average loan rate `0.0100001` (a rate delta of exactly
`0.0100001`), equal loaned amounts.  After rounding to 2 decimals the
deltas compared are `0.01`, which does not exceed the strict threshold,
so no `parameterChange` is emitted — contradicting the claim that a rate
delta of `0.0100001` triggers one. -/
theorem C3_counterexample :
    checkCurrency
      [("USD", [("lending_status", Val.str "active"), ("avg_loan_rate", Val.num 0),
                ("loaned_amount", Val.num 1000)])] "USD"
      [("lending_status", Val.str "active"),
       ("avg_loan_rate", Val.num (100001/10000000)),
       ("loaned_amount", Val.num 1000)] = CheckEvent.noEvent := by
  rw [checkCurrency_active_eq
      [("USD", [("lending_status", Val.str "active"), ("avg_loan_rate", Val.num 0),
                ("loaned_amount", Val.num 1000)])] "USD"
      [("lending_status", Val.str "active"), ("avg_loan_rate", Val.num 0),
       ("loaned_amount", Val.num 1000)]
      [("lending_status", Val.str "active"),
       ("avg_loan_rate", Val.num (100001/10000000)),
       ("loaned_amount", Val.num 1000)] rfl rfl rfl]
  rw [if_neg]
  push_neg
  have e1 : dgetNum [("lending_status", Val.str "active"), ("avg_loan_rate", Val.num 0),
      ("loaned_amount", Val.num 1000)] "avg_loan_rate" 0 = 0 := rfl
  have e2 : dgetNum [("lending_status", Val.str "active"),
      ("avg_loan_rate", Val.num (100001/10000000)),
      ("loaned_amount", Val.num 1000)] "avg_loan_rate" 0 = 100001/10000000 := rfl
  have e3 : dgetNum [("lending_status", Val.str "active"), ("avg_loan_rate", Val.num 0),
      ("loaned_amount", Val.num 1000)] "loaned_amount" 0 = 1000 := rfl
  have e4 : dgetNum [("lending_status", Val.str "active"),
      ("avg_loan_rate", Val.num (100001/10000000)),
      ("loaned_amount", Val.num 1000)] "loaned_amount" 0 = 1000 := rfl
  rw [e1, e2, e3, e4]
  have hz : round2 0 = 0 := by
    unfold round2
    norm_num
  have ho : round2 (100001/10000000) = 1/100 := by
    unfold round2
    norm_num [round_eq]
  constructor
  · rw [hz, ho, zero_sub, abs_neg, abs_of_pos (by norm_num : (0:ℚ) < 1/100)]
  · rw [sub_self, abs_zero]
    norm_num

/-- C3 (amended): for a currency `active` in both snapshots the detector
compares `avg_loan_rate` rounded to 2 decimals and `loaned_amount`
rounded to 8 decimals against the strict thresholds `> 0.01` and
`> 0.0001`; a rounded rate delta of exactly `0.01` does NOT trigger a
`parameterChange`; and because the compared rate values are rounded
before the comparison, a trigger requires a rounded rate delta of at
least `0.02` — so a raw rate delta of `0.0100001` (which rounds to a
`0.01` delta) does not trigger one. -/
theorem C3_threshold (previousAll : PyDict Status) (currency : String)
    (previous status : Status)
    (hprev : dictGet previousAll currency = some previous)
    (h1 : dget previous "lending_status" = some (Val.str "active"))
    (h2 : dget status "lending_status" = some (Val.str "active")) :
    (checkCurrency previousAll currency status = CheckEvent.paramNotify ↔
      (|round2 (dgetNum previous "avg_loan_rate" 0) -
         round2 (dgetNum status "avg_loan_rate" 0)| > 1/100 ∨
       |round8 (dgetNum previous "loaned_amount" 0) -
         round8 (dgetNum status "loaned_amount" 0)| > 1/10000)) ∧
    (|round2 (dgetNum previous "avg_loan_rate" 0) -
       round2 (dgetNum status "avg_loan_rate" 0)| = 1/100 →
     |round8 (dgetNum previous "loaned_amount" 0) -
       round8 (dgetNum status "loaned_amount" 0)| ≤ 1/10000 →
     checkCurrency previousAll currency status = CheckEvent.noEvent) ∧
    (|round2 (dgetNum previous "avg_loan_rate" 0) -
       round2 (dgetNum status "avg_loan_rate" 0)| > 1/100 →
     |round2 (dgetNum previous "avg_loan_rate" 0) -
       round2 (dgetNum status "avg_loan_rate" 0)| ≥ 2/100) := by
  rw [checkCurrency_active_eq previousAll currency previous status hprev h1 h2]
  refine ⟨?_, ?_, round2_granularity _ _⟩
  · constructor
    · intro hc
      by_contra hn
      rw [if_neg hn] at hc
      exact CheckEvent.noConfusion hc
    · intro hc
      rw [if_pos hc]
  · intro hr ha
    rw [if_neg]
    push_neg
    exact ⟨le_of_eq hr, ha⟩

theorem C3_threshold_witness :
    checkCurrency
      [("USD", [("lending_status", Val.str "active"), ("avg_loan_rate", Val.num 0),
                ("loaned_amount", Val.num 1000)])] "USD"
      [("lending_status", Val.str "active"), ("avg_loan_rate", Val.num (1/50)),
       ("loaned_amount", Val.num 1000)] = CheckEvent.paramNotify := by
  apply (C3_threshold
      [("USD", [("lending_status", Val.str "active"), ("avg_loan_rate", Val.num 0),
                ("loaned_amount", Val.num 1000)])] "USD"
      [("lending_status", Val.str "active"), ("avg_loan_rate", Val.num 0),
       ("loaned_amount", Val.num 1000)]
      [("lending_status", Val.str "active"), ("avg_loan_rate", Val.num (1/50)),
       ("loaned_amount", Val.num 1000)] rfl rfl rfl).1.mpr
  left
  have e1 : dgetNum [("lending_status", Val.str "active"), ("avg_loan_rate", Val.num 0),
      ("loaned_amount", Val.num 1000)] "avg_loan_rate" 0 = 0 := rfl
  have e2 : dgetNum [("lending_status", Val.str "active"), ("avg_loan_rate", Val.num (1/50)),
      ("loaned_amount", Val.num 1000)] "avg_loan_rate" 0 = 1/50 := rfl
  rw [e1, e2]
  have hz : round2 0 = 0 := by
    unfold round2
    norm_num
  have ho : round2 (1/50) = 1/50 := by
    unfold round2
    norm_num [round_eq]
  rw [hz, ho, zero_sub, abs_neg, abs_of_pos (by norm_num : (0:ℚ) < 1/50)]
  norm_num

theorem C1_transition_notifications_witness :
    checkCurrency [("BTC", [("lending_status", Val.str "offered")])] "BTC"
        [("lending_status", Val.str "active"), ("avg_loan_rate", Val.num 5)] =
      CheckEvent.statusNotify ∧
    (notify_lending_status_change "BTC" [("lending_status", Val.str "offered")]
        [("lending_status", Val.str "active"), ("avg_loan_rate", Val.num 5)] = true ↔
      ("offered", "active") ∈ [("inactive", "offered"), ("offered", "active"),
                  ("offered", "inactive"), ("active", "inactive")]) :=
  C1_transition_notifications [("BTC", [("lending_status", Val.str "offered")])]
    "BTC" [("lending_status", Val.str "offered")]
    [("lending_status", Val.str "active"), ("avg_loan_rate", Val.num 5)]
    "offered" "active" rfl rfl rfl (Or.inr (Or.inl rfl)) (Or.inr (Or.inr rfl))
    (by decide)

/-! ## Telegram command handlers (`telegram_bot.py`) -/

/-- Python `str.split()` with no argument: split on whitespace runs,
dropping empty pieces. -/
def pySplit (s : String) : List String :=
  (s.split (fun c => c.isWhitespace)).filter (fun w => w != "")

/-- The data query an authorized handler performs; every query begins by
fetching fresh funding data from the exchange
(`self.bitfinex.get_funding_status()` inside the `_send_*` helpers). -/
inductive QueryKind where
  | overall
  | currencyDetail (currency : String)
  | filtered (status_filter : String)
  | marketRates
deriving DecidableEq, Repr

/-- The action a Telegram command handler takes on an inbound message:
an immediate text reply (no exchange data is fetched), or a data query
handed to the corresponding `_send_*` helper. -/
inductive TgAction where
  | replyText (s : String)
  | query (q : QueryKind)
deriving DecidableEq, Repr

/-- The `/start` / `/help` handler (`telegram_bot.py` lines 73-91); the
authorization guard compares `str(message.chat.id)` with the configured
chat id. -/
def handle_start_help (authChatId chatId : String) : TgAction :=
  if chatId ≠ authChatId then TgAction.replyText "Unauthorized access denied."
  else TgAction.replyText
    ("Bitfinex Funding Monitor Bot\n\n" ++
     "Available commands:\n" ++
     "/status - Show overall funding status\n" ++
     "/status [currency] - Show funding status for specific currency\n" ++
     "/active - Show active loans\n" ++
     "/offered - Show offered funds\n" ++
     "/inactive - Show inactive funds\n" ++
     "/rates - Show current market lending rates for active currencies\n" ++
     "/help - Show this help message")

/-- The `/status` handler (`telegram_bot.py` lines 93-110): after the
authorization guard, `message.text.split()` decides between the
per-currency detail query (second token upper-cased) and the overall
summary query. -/
def handle_status (authChatId chatId text : String) : TgAction :=
  if chatId ≠ authChatId then TgAction.replyText "Unauthorized access denied."
  else
    match (pySplit text).drop 1 with
    | arg :: _ => TgAction.query (QueryKind.currencyDetail arg.toUpper)
    | [] => TgAction.query QueryKind.overall

/-- The `/active` handler (`telegram_bot.py` lines 112-123). -/
def handle_active (authChatId chatId : String) : TgAction :=
  if chatId ≠ authChatId then TgAction.replyText "Unauthorized access denied."
  else TgAction.query (QueryKind.filtered "active")

/-- The `/offered` handler (`telegram_bot.py` lines 125-136). -/
def handle_offered (authChatId chatId : String) : TgAction :=
  if chatId ≠ authChatId then TgAction.replyText "Unauthorized access denied."
  else TgAction.query (QueryKind.filtered "offered")

/-- The `/inactive` handler (`telegram_bot.py` lines 138-149). -/
def handle_inactive (authChatId chatId : String) : TgAction :=
  if chatId ≠ authChatId then TgAction.replyText "Unauthorized access denied."
  else TgAction.query (QueryKind.filtered "inactive")

/-- The `/rates` handler (`telegram_bot.py` lines 151-162). -/
def handle_rates (authChatId chatId : String) : TgAction :=
  if chatId ≠ authChatId then TgAction.replyText "Unauthorized access denied."
  else TgAction.query QueryKind.marketRates

/-- C7: every inbound command (including `/status`, with any argument
text) from a chat id different from the single configured authorized
chat id is answered with the fixed rejection text and never reaches a
data query — the handlers' rejection action carries no query, is decided
before any exchange fetch, and does not depend on any funding state. -/
theorem C7_unauthorized_rejection (authChatId chatId text : String)
    (h : chatId ≠ authChatId) :
    handle_status authChatId chatId text =
      TgAction.replyText "Unauthorized access denied." ∧
    handle_start_help authChatId chatId =
      TgAction.replyText "Unauthorized access denied." ∧
    handle_active authChatId chatId =
      TgAction.replyText "Unauthorized access denied." ∧
    handle_offered authChatId chatId =
      TgAction.replyText "Unauthorized access denied." ∧
    handle_inactive authChatId chatId =
      TgAction.replyText "Unauthorized access denied." ∧
    handle_rates authChatId chatId =
      TgAction.replyText "Unauthorized access denied." := by
  unfold handle_status handle_start_help handle_active handle_offered
    handle_inactive handle_rates
  refine ⟨?_, ?_, ?_, ?_, ?_, ?_⟩ <;> rw [if_pos h]

theorem C7_unauthorized_rejection_witness :
    handle_status "123456" "999999" "/status" =
      TgAction.replyText "Unauthorized access denied." :=
  (C7_unauthorized_rejection "123456" "999999" "/status" (by decide)).1

/-! ## Market-rate reply (`telegram_bot.py`, `_send_market_rates`) -/

/-- Python `f"{q:.2f}"` on exact rationals: fixed-point rendering with
two fraction digits.  Python rounds the underlying binary float
half-to-even; this model rounds the exact rational to the nearest
hundredth, which agrees away from ties, and no theorem below depends on
tie behaviour. -/
def fix2 (q : ℚ) : String :=
  let n : ℤ := round (q * 100)
  let sgn := if n < 0 then "-" else ""
  let m := n.natAbs
  let frac := m % 100
  sgn ++ toString (m / 100) ++ "." ++ (if frac < 10 then "0" else "") ++
    toString frac

/-- A market-rate record as produced by
`BitfinexAPI.get_market_lending_rates` (`bitfinex_api.py` lines
491-499); the numeric keys are always present, so the bot's
`.get(k, 0)` reads are plain field accesses. -/
structure MarketRate where
  frr_rate : ℚ
  bid_rate : ℚ
  ask_rate : ℚ
  last_rate : ℚ
  high_rate : ℚ
  low_rate : ℚ
deriving DecidableEq, Repr

/-- The competitiveness indicator for active loans
(`telegram_bot.py` lines 412-418). -/
def activeRateIndicator (user_rate market_rate bid_rate : ℚ) : String :=
  if user_rate ≥ market_rate then "🟢"
  else if user_rate ≥ bid_rate then "⚪"
  else "🔴"

/-- The competitiveness indicator for offered funds
(`telegram_bot.py` lines 436-442). -/
def offeredRateIndicator (user_rate market_rate ask_rate : ℚ) : String :=
  if user_rate ≤ market_rate then "🟢"
  else if user_rate ≤ ask_rate then "⚪"
  else "🔴"

/-- One per-currency rate line of the `/rates` reply
(`telegram_bot.py` lines 420 and 444). -/
def rateLine (indicator currency : String)
    (user_rate market_rate bid_rate ask_rate low_rate high_rate : ℚ) : String :=
  indicator ++ " *" ++ currency ++ "*: Your rate: " ++ fix2 user_rate ++
    "% | Market: " ++ fix2 market_rate ++ "% | Range: " ++ fix2 bid_rate ++
    "%-" ++ fix2 ask_rate ++ "% | 24h: " ++ fix2 low_rate ++ "%-" ++
    fix2 high_rate ++ "%\n"

/-- The active-loans line (`telegram_bot.py` lines 404-420): the user's
own rate is read as `status.get('avg_rate', 0)`. -/
def activeLoanLine (st : Status) (r : MarketRate) (currency : String) : String :=
  rateLine (activeRateIndicator (dgetNum st "avg_rate" 0) r.frr_rate r.bid_rate)
    currency (dgetNum st "avg_rate" 0) r.frr_rate r.bid_rate r.ask_rate
    r.low_rate r.high_rate

/-- The offered-funds line (`telegram_bot.py` lines 428-444): the user's
own rate is read as `status.get('offered_rate', 0)`. -/
def offeredFundLine (st : Status) (r : MarketRate) (currency : String) : String :=
  rateLine (offeredRateIndicator (dgetNum st "offered_rate" 0) r.frr_rate r.ask_rate)
    currency (dgetNum st "offered_rate" 0) r.frr_rate r.bid_rate r.ask_rate
    r.low_rate r.high_rate

/-- The market-only line of the default branch
(`telegram_bot.py` line 458). -/
def marketRateOnlyLine (r : MarketRate) (currency : String) : String :=
  "*" ++ currency ++ "*: FRR: " ++ fix2 r.frr_rate ++ "% | Range: " ++
    fix2 r.bid_rate ++ "%-" ++ fix2 r.ask_rate ++ "% | 24h: " ++
    fix2 r.low_rate ++ "%-" ++ fix2 r.high_rate ++ "%\n"

/-- A `for currency in cs: if currency in market_rates: message += line`
loop of `_send_market_rates`. -/
def sectionLines (fs : PyDict Status) (mr : PyDict MarketRate)
    (cs : List String) (mk : Status → MarketRate → String → String) : String :=
  String.join (cs.map (fun c =>
    match dictGet mr c with
    | some r => mk (dictGetD fs c []) r c
    | none => ""))

/-- The message built by `TelegramBot._send_market_rates`
(`telegram_bot.py` lines 396-466).  In the default branch (no active and
no offered currencies) `currencies_to_check` is `['USD', 'UST']`
(line 386). -/
def marketRatesMessage (fs : PyDict Status) (mr : PyDict MarketRate) : String :=
  let active_currencies :=
    (fs.filter (fun p => dget p.2 "lending_status" == some (Val.str "active"))).map
      Prod.fst
  let offered_currencies :=
    (fs.filter (fun p => decide (dgetNum p.2 "offered_amount" 0 > 0))).map Prod.fst
  "📊 *Current Lending Rates*\n\n" ++
  (if active_currencies ≠ [] then
     "*Active Loans*\n" ++ sectionLines fs mr active_currencies activeLoanLine ++ "\n"
   else "") ++
  (if offered_currencies ≠ [] then
     "*Offered Funds*\n" ++ sectionLines fs mr offered_currencies offeredFundLine ++ "\n"
   else "") ++
  (if active_currencies = [] ∧ offered_currencies = [] then
     "*Market Rates*\n" ++
       String.join (["USD", "UST"].map (fun c =>
         match dictGet mr c with
         | some r => marketRateOnlyLine r c
         | none => ""))
   else "") ++
  (if active_currencies ≠ [] ∨ offered_currencies ≠ [] then
     "\n*Rate Indicators*:\n🟢 - Your rate is better than market\n" ++
       "⚪ - Your rate is average\n🔴 - Your rate is below market\n"
   else "")

/-- The final reply text sent by `_send_market_rates`: the failure notice
when no market rates were retrieved (line 392-394), else the built
message, sent with no truncation step (line 468). -/
def sendMarketRatesReply (fs : PyDict Status) (mr : PyDict MarketRate) : String :=
  if mr = [] then "❌ Failed to retrieve market rates. Please try again later."
  else marketRatesMessage fs mr

/-- C8: the aggregator's status records carry no `'avg_rate'` key (only
`'avg_offer_rate'` and `'avg_loan_rate'`), so the `/rates` reply's
active-loans comparison, which reads `status.get('avg_rate', 0)`,
always displays a user rate of `0.00`, and its better/average/worse
indicator depends only on the signs of the market FRR and bid rates —
never on the user's actual average loan rate. -/
theorem C8_avg_rate_missing (b : PyDict ℚ) (o l : PyDict (List FundingItem))
    (c : String) (st : Status) (r : MarketRate)
    (h : (c, st) ∈ get_funding_status b o l) :
    dget st "avg_rate" = none ∧
    dgetNum st "avg_rate" 0 = 0 ∧
    fix2 (dgetNum st "avg_rate" 0) = "0.00" ∧
    activeRateIndicator (dgetNum st "avg_rate" 0) r.frr_rate r.bid_rate =
      (if r.frr_rate ≤ 0 then "🟢" else if r.bid_rate ≤ 0 then "⚪" else "🔴") := by
  have hst : st = statusFor b o l c := (mem_map_graph h).2
  subst hst
  have hnone : dget (statusFor b o l c) "avg_rate" = none := by
    unfold statusFor
    simp [dget, dictGet, List.find?]
  have hz : dgetNum (statusFor b o l c) "avg_rate" 0 = 0 := by
    unfold dgetNum
    rw [hnone]
  refine ⟨hnone, hz, ?_, ?_⟩
  · rw [hz]
    have h0 : round ((0:ℚ) * 100) = 0 := by norm_num
    simp only [fix2, h0]
    decide
  · rw [hz]
    unfold activeRateIndicator
    simp only [ge_iff_le]

theorem C8_avg_rate_missing_witness :
    dget (statusFor [("USD", 5)] [] [] "USD") "avg_rate" = none ∧
    dgetNum (statusFor [("USD", 5)] [] [] "USD") "avg_rate" 0 = 0 ∧
    fix2 (dgetNum (statusFor [("USD", 5)] [] [] "USD") "avg_rate" 0) = "0.00" ∧
    activeRateIndicator (dgetNum (statusFor [("USD", 5)] [] [] "USD") "avg_rate" 0)
        (MarketRate.mk 1 1 1 1 1 1).frr_rate (MarketRate.mk 1 1 1 1 1 1).bid_rate =
      (if (MarketRate.mk 1 1 1 1 1 1).frr_rate ≤ 0 then "🟢"
       else if (MarketRate.mk 1 1 1 1 1 1).bid_rate ≤ 0 then "⚪" else "🔴") :=
  C8_avg_rate_missing [("USD", 5)] [] [] "USD" (statusFor [("USD", 5)] [] [] "USD")
    (MarketRate.mk 1 1 1 1 1 1) (List.mem_map.mpr ⟨"USD", by decide, rfl⟩)

/-! ## Reply truncation and the filtered-status reply (`telegram_bot.py`) -/

/-- Python string slicing `m[:n]` (by characters). -/
def strTake (s : String) (n : Nat) : String :=
  String.mk (s.data.take n)

/-- The truncation step of `_send_currency_status` and
`_send_filtered_status` (`telegram_bot.py` lines 283-285 and 365-367):
messages longer than 4000 characters are cut to 3950 characters plus a
visible truncation marker, against Telegram's 4096-character limit. -/
def truncateIfLong (m : String) : String :=
  if m.length > 4000 then
    strTake m 3950 ++ "...\n\n(Message truncated due to length)"
  else m

/-- `period_display = period if period > 0 else "Unknown"`
(`telegram_bot.py` line 334). -/
def periodDisplay (p : ℤ) : String :=
  if p > 0 then toString p else "Unknown"

/-- One loan/offer line of `_send_filtered_status`
(`telegram_bot.py` lines 337 and 354), with `i` the 0-based index of
`enumerate(..., 1)`. -/
def itemLine (i : Nat) (it : FundingItem) : String :=
  "  " ++ toString (i+1) ++ ". " ++ fix2 it.amount ++ " @ " ++ fix2 it.rate ++
    "% APR (" ++ periodDisplay it.period ++ " days)\n"

/-- The per-currency block of `_send_filtered_status`
(`telegram_bot.py` lines 321-363), ending with the blank separator
line. -/
def filteredCurrencyBlock (status_filter currency : String) (data : Status) : String :=
  "*" ++ currency ++ "*:\n" ++
  (if status_filter = "active" then
     let loans := match dget data "loans" with | some (Val.items ls) => ls | _ => []
     if loans = [] then "  No individual loan data available\n"
     else String.join (loans.enum.map (fun p => itemLine p.1 p.2))
   else if status_filter = "offered" then
     let offers := match dget data "offers" with | some (Val.items ls) => ls | _ => []
     if offers = [] then "  No individual offer data available\n"
     else String.join (offers.enum.map (fun p => itemLine p.1 p.2))
   else
     "  " ++ fix2 (dgetNum data "wallet_balance" 0) ++ " in wallet\n") ++
  "\n"

/-- The reply text sent by `TelegramBot._send_filtered_status`
(`telegram_bot.py` lines 289-369), including the empty-data notices and
the final truncation step. -/
def sendFilteredStatusReply (fs : PyDict Status) (status_filter : String) : String :=
  if fs = [] then "No funding data available."
  else
    let filtered := fs.filter (fun p =>
      dget p.2 "lending_status" == some (Val.str status_filter))
    if filtered = [] then "No " ++ status_filter ++ " funding positions found."
    else
      let title :=
        if status_filter = "active" then "🟢 *Active Loans*\n\n"
        else if status_filter = "offered" then "🟡 *Offered Funds*\n\n"
        else "🔴 *Inactive Funds*\n\n"
      truncateIfLong (title ++
        String.join (filtered.map (fun p => filteredCurrencyBlock status_filter p.1 p.2)))

/-- C6 counterexample: a market-rates reply can exceed the transport's
4096-character limit and is sent without any truncation step. -/
theorem C6_counterexample :
    4096 < (sendMarketRatesReply
      [(String.mk (List.replicate 4200 'A'), [("lending_status", Val.str "active")])]
      [(String.mk (List.replicate 4200 'A'), MarketRate.mk 0 0 0 0 0 0)]).length := by
  set C := String.mk (List.replicate 4200 'A') with hC
  set st : Status := [("lending_status", Val.str "active")] with hst
  set r : MarketRate := MarketRate.mk 0 0 0 0 0 0 with hr
  have hlen : C.length = 4200 := by
    rw [hC, String.mk_length, List.length_replicate]
  rw [sendMarketRatesReply, if_neg (by simp)]
  have hact : List.filter
      (fun p => dget p.2 "lending_status" == some (Val.str "active")) [(C, st)] =
      [(C, st)] := by
    rw [List.filter_cons_of_pos rfl, List.filter_nil]
  have hoff : List.filter
      (fun p => decide (dgetNum p.2 "offered_amount" 0 > 0)) [(C, st)] = [] := by
    rw [List.filter_cons_of_neg (by simp [hst, dgetNum, dget, dictGet, List.find?]),
      List.filter_nil]
  simp only [marketRatesMessage]
  rw [hact, hoff]
  simp only [List.map]
  rw [if_pos (by simp), if_neg (by simp), if_neg (by simp), if_pos (by simp)]
  have hsec : sectionLines [(C, st)] [(C, r)] [C] activeLoanLine =
      activeLoanLine st r C := by
    simp only [sectionLines, List.map]
    have hg : dictGet [(C, r)] C = some r := by
      unfold dictGet
      rw [List.find?_cons_of_pos _ (by simp)]
      rfl
    have hd : dictGetD [(C, st)] C [] = st := by
      unfold dictGetD dictGet
      rw [List.find?_cons_of_pos _ (by simp)]
      rfl
    rw [hg, hd]
    rfl
  rw [hsec]
  simp only [activeLoanLine, rateLine, String.length_append, hlen]
  omega

/-- C6 (amended): the per-currency detail and filter-by-status replies
pass through the truncation step, which caps any over-long message at
3950 characters plus a visible truncation marker (final length at most
3988 ≤ 4096); the filter-by-status reply therefore never exceeds the
4096-character transport limit.  The market-rates reply (and the overall
summary) are sent without this truncation step and can exceed the
limit. -/
theorem C6_truncation (fs : PyDict Status) (status_filter m : String)
    (hf : status_filter = "active" ∨ status_filter = "offered" ∨
      status_filter = "inactive") :
    (sendFilteredStatusReply fs status_filter).length ≤ 4096 ∧
    (truncateIfLong m).length ≤ 4096 ∧
    (4000 < m.length →
      ∃ pfx, truncateIfLong m =
        pfx ++ "...\n\n(Message truncated due to length)" ∧ pfx.length = 3950) := by
  have hmark : ("...\n\n(Message truncated due to length)" : String).length = 38 := by
    decide
  have htake : ∀ s : String, (strTake s 3950).length ≤ 3950 := by
    intro s
    unfold strTake
    rw [String.mk_length, List.length_take]
    exact min_le_left _ _
  have htrunc : ∀ s : String, (truncateIfLong s).length ≤ 4096 := by
    intro s
    unfold truncateIfLong
    by_cases h : s.length > 4000
    · rw [if_pos h, String.length_append, hmark]
      have := htake s
      omega
    · rw [if_neg h]
      omega
  refine ⟨?_, htrunc m, ?_⟩
  · simp only [sendFilteredStatusReply]
    split_ifs
    all_goals first
      | apply htrunc
      | decide
      | (rcases hf with h | h | h <;> subst h <;> decide)
  · intro hm
    refine ⟨strTake m 3950, ?_, ?_⟩
    · unfold truncateIfLong
      rw [if_pos hm]
    · unfold strTake
      rw [String.mk_length, List.length_take, String.length_data]
      exact min_eq_left (by omega)

theorem C6_truncation_witness :
    ∃ pfx, truncateIfLong (String.mk (List.replicate 4001 'a')) =
      pfx ++ "...\n\n(Message truncated due to length)" ∧ pfx.length = 3950 :=
  (C6_truncation [] "active" (String.mk (List.replicate 4001 'a'))
    (Or.inl rfl)).2.2
    (by rw [String.mk_length, List.length_replicate]; omega)

/-! ## Funding wallet balances (`bitfinex_api.py`, `get_funding_wallet_balances`) -/

/-- One value of CCXT's `balances['funding']` dict
(`bitfinex_api.py` lines 167-171): a per-currency detail dict read
through its `'free'` key, a bare number, or anything else (skipped). -/
inductive BalanceDetail where
  | dictDetail (d : PyDict ℚ)
  | numDetail (q : ℚ)
  | otherDetail
deriving DecidableEq, Repr

/-- A row of CCXT's raw `balances['info']` list or of the
`/v2/auth/r/wallets` response that passed the `isinstance`/length
guards: `[wallet_type, currency, amount, ...]`.  Rows failing those
guards are skipped by the code and omitted from the model input. -/
structure WalletRow where
  walletType : String
  currency : String
  amount : ℚ
deriving DecidableEq, Repr

/-- The body of the `balances['funding']` loop
(`bitfinex_api.py` lines 167-171): a dict detail with positive `'free'`
amount, or a positive bare number, is stored under the upper-cased
currency code; everything else is skipped. -/
def fundingDictStep (acc : PyDict ℚ) (p : String × BalanceDetail) : PyDict ℚ :=
  match p.2 with
  | BalanceDetail.dictDetail d =>
      match dictGet d "free" with
      | some f => if f > 0 then dinsert acc p.1.toUpper f else acc
      | none => acc
  | BalanceDetail.numDetail q => if q > 0 then dinsert acc p.1.toUpper q else acc
  | BalanceDetail.otherDetail => acc

/-- Parsing of CCXT's `balances['funding']` dict (lines 166-171). -/
def parseFundingDict (fd : PyDict BalanceDetail) : PyDict ℚ :=
  fd.foldl fundingDictStep []

/-- Normalization of an info-row currency (lines 186-189): upper-case,
then strip one leading `'F'` (the funding-market marker). -/
def normInfoCurrency (c : String) : String :=
  let cu := c.toUpper
  if cu.startsWith "F" then cu.drop 1 else cu

/-- The shared body of the `balances['info']` loop (lines 179-190) and
the `/v2/auth/r/wallets` loop (lines 204-212): a `'funding'` row with
positive amount is stored under the normalized currency code
(`normInfoCurrency` for the info path, plain `String.toUpper` for the
direct path). -/
def walletRowStep (normalize : String → String) (acc : PyDict ℚ)
    (r : WalletRow) : PyDict ℚ :=
  if r.walletType = "funding" ∧ r.amount > 0 then
    dinsert acc (normalize r.currency) r.amount
  else acc

/-- Parsing of the raw `balances['info']` rows (lines 178-190),
continuing to fill the dict started by the funding-dict pass. -/
def parseInfoList (rows : List WalletRow) (acc : PyDict ℚ) : PyDict ℚ :=
  rows.foldl (walletRowStep normInfoCurrency) acc

/-- Parsing of the direct `/v2/auth/r/wallets` response (lines 199-214);
a non-list response contributes no rows. -/
def parseWallets (rows : List WalletRow) : PyDict ℚ :=
  rows.foldl (walletRowStep String.toUpper) []

/-- `BitfinexAPI.get_funding_wallet_balances` (lines 152-217).  `ccxtOk`
is `false` when CCXT's `fetch_balance` raises (the code then falls back
to the direct API call); `fundingWallet` / `infoList` are `none` when
the respective key is absent from the CCXT response.  Each non-empty
intermediate dict is returned immediately (lines 173-175 and
192-194). -/
def get_funding_wallet_balances (ccxtOk : Bool)
    (fundingWallet : Option (PyDict BalanceDetail))
    (infoList : Option (List WalletRow)) (wallets : List WalletRow) : PyDict ℚ :=
  if ccxtOk then
    let fb1 := match fundingWallet with
      | some fd => parseFundingDict fd
      | none => []
    if fb1 ≠ [] then fb1
    else
      let fb2 := match infoList with
        | some rows => parseInfoList rows fb1
        | none => fb1
      if fb2 ≠ [] then fb2 else parseWallets wallets
  else parseWallets wallets

/-- The detail of a funding-dict entry contributes no positive amount. -/
def detailNonpos (det : BalanceDetail) : Bool :=
  match det with
  | BalanceDetail.dictDetail d =>
      match dictGet d "free" with
      | some f => decide (f ≤ 0)
      | none => true
  | BalanceDetail.numDetail q => decide (q ≤ 0)
  | BalanceDetail.otherDetail => true

/-- Every datum normalizing to currency `C` across the three raw wallet
inputs is non-positive: `C`'s only wallet data are zero or negative
balances. -/
def zeroOnly (C : String) (fundingWallet : Option (PyDict BalanceDetail))
    (infoList : Option (List WalletRow)) (wallets : List WalletRow) : Bool :=
  (match fundingWallet with
   | some fd => fd.all (fun p => !(p.1.toUpper == C) || detailNonpos p.2)
   | none => true) &&
  (match infoList with
   | some rows => rows.all (fun r =>
       !(normInfoCurrency r.currency == C) || !(r.walletType == "funding") ||
         decide (r.amount ≤ 0))
   | none => true) &&
  wallets.all (fun r =>
    !(r.currency.toUpper == C) || !(r.walletType == "funding") ||
      decide (r.amount ≤ 0))

/-! ### Invariant lemmas for the wallet parsers -/

theorem foldl_invariant {β : Type} (P : PyDict ℚ → Prop)
    (f : PyDict ℚ → β → PyDict ℚ) (l : List β) (init : PyDict ℚ)
    (hinit : P init) (hstep : ∀ acc b, b ∈ l → P acc → P (f acc b)) :
    P (l.foldl f init) := by
  induction l generalizing init with
  | nil => exact hinit
  | cons b t ih =>
    refine ih (f init b) (hstep init b (List.mem_cons_self b t) hinit) ?_
    intro acc c hc hacc
    exact hstep acc c (List.mem_cons_of_mem b hc) hacc

theorem allPos_dinsert (d : PyDict ℚ) (k : String) (v : ℚ)
    (hd : ∀ p ∈ d, 0 < p.2) (hv : 0 < v) : ∀ p ∈ dinsert d k v, 0 < p.2 := by
  unfold dinsert
  intro p hp
  split_ifs at hp with h
  · rcases List.mem_map.mp hp with ⟨q, hq, he⟩
    by_cases hqk : (q.1 == k) = true
    · rw [if_pos hqk] at he
      rw [← he]
      exact hv
    · rw [if_neg hqk] at he
      rw [← he]
      exact hd q hq
  · rcases List.mem_append.mp hp with h1 | h1
    · exact hd p h1
    · rw [List.mem_singleton] at h1
      rw [h1]
      exact hv

theorem not_mem_keys_dinsert {α : Type} (d : PyDict α) (k j : String) (v : α)
    (hj : j ≠ k) (hd : j ∉ keys d) : j ∉ keys (dinsert d k v) := by
  unfold dinsert keys at *
  split_ifs with h
  · intro hmem
    rw [List.map_map] at hmem
    rcases List.mem_map.mp hmem with ⟨q, hq, he⟩
    by_cases hqk : (q.1 == k) = true
    · apply hj
    
      simp only [Function.comp, if_pos hqk] at he
      exact he.symm
    · apply hd
      simp only [Function.comp, if_neg hqk] at he
      exact he ▸ List.mem_map_of_mem Prod.fst hq
  · intro hmem
    rw [List.map_append] at hmem
    rcases List.mem_append.mp hmem with h1 | h1
    · exact hd h1
    · rw [List.map_singleton, List.mem_singleton] at h1
      exact hj h1

theorem fundingDictStep_pos (acc : PyDict ℚ) (p : String × BalanceDetail)
    (hacc : ∀ q ∈ acc, 0 < q.2) : ∀ q ∈ fundingDictStep acc p, 0 < q.2 := by
  unfold fundingDictStep
  rcases p with ⟨c, det⟩
  cases det with
  | dictDetail d =>
    dsimp only
    cases hf : dictGet d "free" with
    | some f =>
      dsimp only
      split_ifs with h
      · exact allPos_dinsert _ _ _ hacc h
      · exact hacc
    | none => exact hacc
  | numDetail q =>
    dsimp only
    split_ifs with h
    · exact allPos_dinsert _ _ _ hacc h
    · exact hacc
  | otherDetail => exact hacc

theorem walletRowStep_pos (normalize : String → String) (acc : PyDict ℚ)
    (r : WalletRow) (hacc : ∀ q ∈ acc, 0 < q.2) :
    ∀ q ∈ walletRowStep normalize acc r, 0 < q.2 := by
  unfold walletRowStep
  split_ifs with h
  · exact allPos_dinsert _ _ _ hacc h.2
  · exact hacc

theorem parseFundingDict_pos (fd : PyDict BalanceDetail) :
    ∀ q ∈ parseFundingDict fd, 0 < q.2 :=
  foldl_invariant (fun d => ∀ q ∈ d, 0 < q.2) fundingDictStep fd []
    (by simp) (fun acc b _ hacc => fundingDictStep_pos acc b hacc)

theorem parseInfoList_pos (rows : List WalletRow) (acc : PyDict ℚ)
    (hacc : ∀ q ∈ acc, 0 < q.2) : ∀ q ∈ parseInfoList rows acc, 0 < q.2 :=
  foldl_invariant (fun d => ∀ q ∈ d, 0 < q.2) (walletRowStep normInfoCurrency)
    rows acc hacc (fun acc b _ hacc => walletRowStep_pos _ acc b hacc)

theorem parseWallets_pos (rows : List WalletRow) :
    ∀ q ∈ parseWallets rows, 0 < q.2 :=
  foldl_invariant (fun d => ∀ q ∈ d, 0 < q.2) (walletRowStep String.toUpper)
    rows [] (by simp) (fun acc b _ hacc => walletRowStep_pos _ acc b hacc)

theorem fundingDictStep_not_mem (C : String) (acc : PyDict ℚ)
    (p : String × BalanceDetail)
    (hp : (!(p.1.toUpper == C) || detailNonpos p.2) = true)
    (hacc : C ∉ keys acc) : C ∉ keys (fundingDictStep acc p) := by
  unfold fundingDictStep
  rcases p with ⟨c, det⟩
  cases det with
  | dictDetail d =>
    dsimp only
    simp only [detailNonpos] at hp
    cases hf : dictGet d "free" with
    | some f =>
      rw [hf] at hp
      dsimp only at hp ⊢
      split_ifs with h
      · refine not_mem_keys_dinsert _ _ _ _ ?_ hacc
        simp only [Bool.or_eq_true, Bool.not_eq_true', beq_eq_false_iff_ne,
          decide_eq_true_eq] at hp
        rcases hp with hne | hle
        · exact Ne.symm hne
        · linarith
      · exact hacc
    | none => exact hacc
  | numDetail q =>
    dsimp only
    simp only [detailNonpos] at hp
    split_ifs with h
    · refine not_mem_keys_dinsert _ _ _ _ ?_ hacc
      simp only [Bool.or_eq_true, Bool.not_eq_true', beq_eq_false_iff_ne,
        decide_eq_true_eq] at hp
      rcases hp with hne | hle
      · exact Ne.symm hne
      · linarith
    · exact hacc
  | otherDetail => exact hacc

theorem walletRowStep_not_mem (normalize : String → String) (C : String)
    (acc : PyDict ℚ) (r : WalletRow)
    (hp : (!(normalize r.currency == C) || !(r.walletType == "funding") ||
      decide (r.amount ≤ 0)) = true)
    (hacc : C ∉ keys acc) : C ∉ keys (walletRowStep normalize acc r) := by
  unfold walletRowStep
  split_ifs with h
  · refine not_mem_keys_dinsert _ _ _ _ ?_ hacc
    simp only [Bool.or_eq_true, Bool.not_eq_true', beq_eq_false_iff_ne,
      decide_eq_true_eq] at hp
    rcases hp with (hne | hw) | hle
    · exact Ne.symm hne
    · exact absurd h.1 hw
    · linarith [h.2]
  · exact hacc

theorem parseFundingDict_not_mem (C : String) (fd : PyDict BalanceDetail)
    (hz : fd.all (fun p => !(p.1.toUpper == C) || detailNonpos p.2) = true) :
    C ∉ keys (parseFundingDict fd) :=
  foldl_invariant (fun d => C ∉ keys d) fundingDictStep fd [] (by simp [keys])
    (fun acc b hb hacc =>
      fundingDictStep_not_mem C acc b (List.all_eq_true.mp hz b hb) hacc)

theorem parseInfoList_not_mem (C : String) (rows : List WalletRow)
    (acc : PyDict ℚ)
    (hz : rows.all (fun r =>
      !(normInfoCurrency r.currency == C) || !(r.walletType == "funding") ||
        decide (r.amount ≤ 0)) = true)
    (hacc : C ∉ keys acc) : C ∉ keys (parseInfoList rows acc) :=
  foldl_invariant (fun d => C ∉ keys d) (walletRowStep normInfoCurrency) rows acc
    hacc (fun acc b hb hacc =>
      walletRowStep_not_mem _ C acc b (List.all_eq_true.mp hz b hb) hacc)

theorem parseWallets_not_mem (C : String) (rows : List WalletRow)
    (hz : rows.all (fun r =>
      !(r.currency.toUpper == C) || !(r.walletType == "funding") ||
        decide (r.amount ≤ 0)) = true) :
    C ∉ keys (parseWallets rows) :=
  foldl_invariant (fun d => C ∉ keys d) (walletRowStep String.toUpper) rows []
    (by simp [keys]) (fun acc b hb hacc =>
      walletRowStep_not_mem _ C acc b (List.all_eq_true.mp hz b hb) hacc)

theorem mem_keys_get_funding_status (b : PyDict ℚ)
    (o l : PyDict (List FundingItem)) (c : String) :
    c ∈ keys (get_funding_status b o l) ↔
      c ∈ keys b ∨ c ∈ keys o ∨ c ∈ keys l := by
  unfold get_funding_status keys
  simp [List.mem_dedup, or_assoc]

/-- C9: every value in the map returned by the funding-wallet fetch is
strictly positive — entries with zero or negative amounts are omitted on
all three parsing paths (CCXT funding dict, raw CCXT info list, direct
v2 wallets call); consequently a currency whose only wallet data are
zero/negative balances, and which has no offers and no loans, never
enters the aggregated funding status at all. -/
theorem C9_positive_balances (ccxtOk : Bool)
    (fundingWallet : Option (PyDict BalanceDetail))
    (infoList : Option (List WalletRow)) (wallets : List WalletRow)
    (o l : PyDict (List FundingItem)) (C : String) :
    (∀ p ∈ get_funding_wallet_balances ccxtOk fundingWallet infoList wallets,
      0 < p.2) ∧
    (zeroOnly C fundingWallet infoList wallets = true →
      C ∉ keys (get_funding_wallet_balances ccxtOk fundingWallet infoList wallets)) ∧
    (zeroOnly C fundingWallet infoList wallets = true →
      C ∉ keys o → C ∉ keys l →
      C ∉ keys (get_funding_status
        (get_funding_wallet_balances ccxtOk fundingWallet infoList wallets) o l)) := by
  have hpos : ∀ p ∈ get_funding_wallet_balances ccxtOk fundingWallet infoList wallets,
      0 < p.2 := by
    simp only [get_funding_wallet_balances]
    cases fundingWallet with
    | some fd =>
      cases infoList with
      | some rows =>
        dsimp only
        split_ifs with hc h1 h2
        · exact parseFundingDict_pos fd
        · exact parseInfoList_pos rows _ (parseFundingDict_pos fd)
        · exact parseWallets_pos wallets
        · exact parseWallets_pos wallets
      | none =>
        dsimp only
        split_ifs with hc h1
        · exact parseFundingDict_pos fd
        · exact parseWallets_pos wallets
        · exact parseWallets_pos wallets
    | none =>
      cases infoList with
      | some rows =>
        dsimp only
        split_ifs with hc h1 h2
        · exact absurd rfl h1
        · exact parseInfoList_pos rows [] (by simp)
        · exact parseWallets_pos wallets
        · exact parseWallets_pos wallets
      | none =>
        dsimp only
        split_ifs with hc h1
        · exact absurd rfl h1
        · exact parseWallets_pos wallets
        · exact parseWallets_pos wallets
  have hexcl : zeroOnly C fundingWallet infoList wallets = true →
      C ∉ keys (get_funding_wallet_balances ccxtOk fundingWallet infoList wallets) := by
    intro hz
    simp only [get_funding_wallet_balances]
    cases fundingWallet with
    | some fd =>
      cases infoList with
      | some rows =>
        simp only [zeroOnly, Bool.and_eq_true] at hz
        obtain ⟨⟨hz1, hz2⟩, hz3⟩ := hz
        dsimp only
        split_ifs with hc h1 h2
        · exact parseFundingDict_not_mem C fd hz1
        · exact parseInfoList_not_mem C rows _ hz2 (parseFundingDict_not_mem C fd hz1)
        · exact parseWallets_not_mem C wallets hz3
        · exact parseWallets_not_mem C wallets hz3
      | none =>
        simp only [zeroOnly, Bool.and_eq_true] at hz
        obtain ⟨⟨hz1, hz2⟩, hz3⟩ := hz
        dsimp only
        split_ifs with hc h1
        · exact parseFundingDict_not_mem C fd hz1
        · exact parseWallets_not_mem C wallets hz3
        · exact parseWallets_not_mem C wallets hz3
    | none =>
      cases infoList with
      | some rows =>
        simp only [zeroOnly, Bool.and_eq_true] at hz
        obtain ⟨⟨hz1, hz2⟩, hz3⟩ := hz
        dsimp only
        split_ifs with hc h1 h2
        · exact absurd rfl h1
        · exact parseInfoList_not_mem C rows [] hz2 (by simp [keys])
        · exact parseWallets_not_mem C wallets hz3
        · exact parseWallets_not_mem C wallets hz3
      | none =>
        simp only [zeroOnly, Bool.and_eq_true] at hz
        obtain ⟨⟨hz1, hz2⟩, hz3⟩ := hz
        dsimp only
        split_ifs with hc h1
        · exact absurd rfl h1
        · exact parseWallets_not_mem C wallets hz3
        · exact parseWallets_not_mem C wallets hz3
  refine ⟨hpos, hexcl, ?_⟩
  intro hz ho hl hmem
  rcases (mem_keys_get_funding_status _ o l C).mp hmem with hb | hmem2 | hmem3
  · exact hexcl hz hb
  · exact ho hmem2
  · exact hl hmem3

theorem C9_positive_balances_witness :
    "USD" ∉ keys (get_funding_status
      (get_funding_wallet_balances true (some [("usd", BalanceDetail.numDetail 0)])
        none []) [] []) :=
  (C9_positive_balances true (some [("usd", BalanceDetail.numDetail 0)]) none []
    [] [] "USD").2.2 (by simp [zeroOnly, detailNonpos]) (by simp [keys])
    (by simp [keys])
